import Mathlib

/-!
Shallow embedding of the enrollment / payment-reconciliation core of the
LKnight LMS backend (src/src/controllers/enrollment.controller.js), together
with theorems settling the specification claims about it.

The Prisma store is modelled as explicit lists of users, courses, and
enrollment rows; each Express handler becomes a pure function from the store
and the request data to an HTTP status code, an optional payload, and the
updated store.  JavaScript numbers that carry money are modelled as `Rat`
(Stripe's `amount_total` is an integer number of cents; catalog prices are
decimals).  `Date` timestamps are opaque `Nat` values passed in as `now`.
-/

namespace LMS

/-- Enrollment status enum (`PENDING | COMPLETED | REFUNDED`). -/
inductive EnrollStatus where
  | PENDING
  | COMPLETED
  | REFUNDED
deriving DecidableEq, Repr

/-- Course publication status (only `PUBLISHED` matters to the enrollment
    code; all other values behave alike). -/
inductive CourseStatus where
  | PUBLISHED
  | DRAFT
deriving DecidableEq, Repr

/-- A catalog course, as read by the enrollment controller. -/
structure Course where
  id : String
  title : String
  price : Rat
  status : CourseStatus
deriving DecidableEq, Repr

/-- An enrollment row (prisma model `Enrollment`), restricted to the fields
    the enrollment controller reads or writes. -/
structure Enrollment where
  id : Nat
  userId : String
  courseId : String
  price : Rat
  status : EnrollStatus
  progress : Nat
  completedAt : Option Nat
  paymentMethod : Option String
  stripeSessionId : Option String
  stripePaymentId : Option String
deriving DecidableEq, Repr

/-- The durable store: user ids, catalog courses, enrollment rows, and the
    id the next created enrollment row receives. -/
structure DB where
  users : List String
  courses : List Course
  enrollments : List Enrollment
  nextId : Nat
deriving DecidableEq, Repr

/-- `prisma.user.findUnique({ where: { id } })`, reduced to existence. -/
def userExists (db : DB) (uid : String) : Bool :=
  db.users.contains uid

/-- `prisma.course.findUnique({ where: { id } })`. -/
def findCourseById (db : DB) (cid : String) : Option Course :=
  db.courses.find? (fun c => c.id = cid)

/-- `prisma.enrollment.findUnique({ where: { userId_courseId } })`. -/
def findEnrollmentByPair (db : DB) (uid cid : String) : Option Enrollment :=
  db.enrollments.find? (fun e => e.userId = uid && e.courseId = cid)

/-- `prisma.enrollment.findUnique({ where: { stripeSessionId } })`. -/
def findEnrollmentBySession (db : DB) (sid : String) : Option Enrollment :=
  db.enrollments.find? (fun e => e.stripeSessionId = some sid)

/-- `prisma.enrollment.findUnique({ where: { id } })`. -/
def findEnrollmentById (db : DB) (i : Nat) : Option Enrollment :=
  db.enrollments.find? (fun e => e.id = i)

/-- `prisma.enrollment.update({ where: { id }, data })`: apply `f` to the
    row(s) with the given id, leave every other row untouched. -/
def updateWhere (db : DB) (i : Nat) (f : Enrollment → Enrollment) : DB :=
  { db with enrollments := db.enrollments.map (fun e => if e.id = i then f e else e) }

/-- `prisma.enrollment.create({ data })`: prepend the new row and bump the
    id counter. -/
def insertEnrollment (db : DB) (e : Enrollment) : DB :=
  { db with enrollments := e :: db.enrollments, nextId := db.nextId + 1 }

/-- Result of a JSON handler that may change the store: HTTP status code
    plus the store after the call. -/
structure ApiResult where
  code : Nat
  db : DB
deriving DecidableEq, Repr

/-! ## Direct enroll / purchase path -/

/-- `createEnrollment` (POST /api/enrollments, admin/user): validate ids,
    check user and course existence, reject a duplicate (userId, courseId)
    pair, then create a PENDING enrollment with progress 0 and price equal
    to the caller-supplied override when given, else the catalog price. -/
def createEnrollment (db : DB) (userId courseId : Option String)
    (price : Option Rat) : ApiResult :=
  match userId, courseId with
  | some uid, some cid =>
    if ! userExists db uid then ⟨404, db⟩
    else
      match findCourseById db cid with
      | none => ⟨404, db⟩
      | some course =>
        match findEnrollmentByPair db uid cid with
        | some _ => ⟨409, db⟩
        | none =>
          let e : Enrollment :=
            { id := db.nextId, userId := uid, courseId := cid
              price := match price with | some p => p | none => course.price
              status := .PENDING, progress := 0, completedAt := none
              paymentMethod := none, stripeSessionId := none
              stripePaymentId := none }
          ⟨201, insertEnrollment db e⟩
  | _, _ => ⟨400, db⟩

/-- `purchaseCourse` (POST /api/enrollments/purchase/:courseId, user):
    course must exist and be PUBLISHED, pair must be new; creates a PENDING
    enrollment at the catalog price with progress 0. -/
def purchaseCourse (db : DB) (userId courseId : String) : ApiResult :=
  match findCourseById db courseId with
  | none => ⟨404, db⟩
  | some course =>
    if course.status ≠ .PUBLISHED then ⟨400, db⟩
    else
      match findEnrollmentByPair db userId courseId with
      | some _ => ⟨409, db⟩
      | none =>
        let e : Enrollment :=
          { id := db.nextId, userId := userId, courseId := courseId
            price := course.price, status := .PENDING, progress := 0
            completedAt := none, paymentMethod := none
            stripeSessionId := none, stripePaymentId := none }
        ⟨201, insertEnrollment db e⟩

/-! ## Status / progress / refund transitions -/

/-- JavaScript `String.prototype.toUpperCase`, on the ASCII alphabet the
    status strings use: uppercase every character. -/
def jsToUpperCase (s : String) : String :=
  ⟨s.data.map Char.toUpper⟩

/-- Parse the body's `status` after `toUpperCase()` against
    `validStatuses = ['PENDING', 'COMPLETED', 'REFUNDED']`. -/
def parseStatus (s : String) : Option EnrollStatus :=
  if s = "PENDING" then some .PENDING
  else if s = "COMPLETED" then some .COMPLETED
  else if s = "REFUNDED" then some .REFUNDED
  else none

/-- `updateEnrollmentStatus` (PATCH /api/enrollments/:id/status, admin):
    validate the target status, 404 on a missing row, then set the status;
    when the target is COMPLETED also stamp `completedAt` and force
    progress to 100. -/
def updateEnrollmentStatus (db : DB) (i : Nat) (statusBody : Option String)
    (now : Nat) : ApiResult :=
  match statusBody with
  | none => ⟨400, db⟩
  | some raw =>
    match parseStatus (jsToUpperCase raw) with
    | none => ⟨400, db⟩
    | some st =>
      match findEnrollmentById db i with
      | none => ⟨404, db⟩
      | some _ =>
        let db' := updateWhere db i (fun e =>
          if st = .COMPLETED then
            { e with status := st, completedAt := some now, progress := 100 }
          else
            { e with status := st })
        ⟨200, db'⟩

/-- `updateEnrollmentProgress` (PATCH /api/enrollments/:id/progress, owner):
    validate progress ∈ [0,100], 404 on a missing row, then set progress;
    when the new value is 100 and the current status is not COMPLETED,
    auto-transition to COMPLETED and stamp `completedAt`. -/
def updateEnrollmentProgress (db : DB) (i : Nat) (progress : Option Int)
    (now : Nat) : ApiResult :=
  match progress with
  | none => ⟨400, db⟩
  | some p =>
    if p < 0 ∨ p > 100 then ⟨400, db⟩
    else
      match findEnrollmentById db i with
      | none => ⟨404, db⟩
      | some e0 =>
        let db' := updateWhere db i (fun e =>
          if p = 100 ∧ e0.status ≠ .COMPLETED then
            { e with progress := p.toNat, status := .COMPLETED
                     completedAt := some now }
          else
            { e with progress := p.toNat })
        ⟨200, db'⟩

/-- `processRefund` (POST /api/enrollments/:id/refund, admin): 404 on a
    missing row, 400 when already REFUNDED, otherwise set status to
    REFUNDED (price, progress, and payment identifiers untouched). -/
def processRefund (db : DB) (i : Nat) : ApiResult :=
  match findEnrollmentById db i with
  | none => ⟨404, db⟩
  | some e0 =>
    if e0.status = .REFUNDED then ⟨400, db⟩
    else ⟨200, updateWhere db i (fun e => { e with status := .REFUNDED })⟩

/-! ## Checkout-session creation -/

/-- Result of `createCheckoutSession`: status code, store after the call,
    whether a Stripe checkout session was requested from the gateway, and
    the id of the enrollment created on the free-course path (if any). -/
structure CheckoutResult where
  code : Nat
  db : DB
  gatewayCalled : Bool
  freeEnrollmentId : Option Nat
deriving DecidableEq, Repr

/-- `createCheckoutSession` (POST /api/enrollments/create-checkout-session,
    user): validate the body, check course existence and publication,
    reject an existing pair, check the user exists; a zero-price course is
    enrolled immediately with `paymentMethod = "free"` and no gateway call,
    a paid course requires the Stripe client (`stripeConfigured`, 503 when
    missing) and only requests a hosted session — no enrollment row is
    written.  `gatewayOk` models whether `stripe.checkout.sessions.create`
    succeeds: when it throws (gateway unreachable), the controller's catch
    forwards the error to the generic error middleware, which answers
    `err.status || 500` — a Stripe error carries neither a Prisma code nor
    a `status`, so the response is the generic 500, not 503. -/
def createCheckoutSession (db : DB) (userId : String)
    (courseId : Option String) (stripeConfigured gatewayOk : Bool) :
    CheckoutResult :=
  match courseId with
  | none => ⟨400, db, false, none⟩
  | some cid =>
    match findCourseById db cid with
    | none => ⟨404, db, false, none⟩
    | some course =>
      if course.status ≠ .PUBLISHED then ⟨400, db, false, none⟩
      else
        match findEnrollmentByPair db userId cid with
        | some _ => ⟨409, db, false, none⟩
        | none =>
          if ! userExists db userId then ⟨404, db, false, none⟩
          else if course.price = 0 then
            let e : Enrollment :=
              { id := db.nextId, userId := userId, courseId := cid
                price := 0, status := .PENDING, progress := 0
                completedAt := none, paymentMethod := some "free"
                stripeSessionId := none, stripePaymentId := none }
            ⟨201, insertEnrollment db e, false, some db.nextId⟩
          else if ! stripeConfigured then ⟨503, db, false, none⟩
          else if ! gatewayOk then ⟨500, db, true, none⟩
          else ⟨200, db, true, none⟩

/-! ## Stripe webhook -/

/-- The `checkout.session` object carried by a Stripe event: session id,
    payment intent, settled amount in cents (`amount_total`, nullable), and
    the metadata embedded at checkout-session creation. -/
structure StripeSession where
  id : String
  payment_intent : Option String
  amount_total : Option Nat
  metaUserId : Option String
  metaCourseId : Option String
deriving DecidableEq, Repr

/-- The Stripe event types the webhook distinguishes. -/
inductive StripeEvent where
  | checkoutCompleted (s : StripeSession)
  | checkoutExpired (s : StripeSession)
  | other
deriving DecidableEq, Repr

/-- `session.amount_total ? session.amount_total / 100 : 0` — cents to
    dollars, with JavaScript falsiness on 0 / null. -/
def settledDollars (amountTotal : Option Nat) : Rat :=
  match amountTotal with
  | some n => if n = 0 then 0 else (n : Rat) / 100
  | none => 0

/-- `handleStripeWebhook` (POST /api/webhooks/stripe).
    `secretConfigured` models `STRIPE_WEBHOOK_SECRET` being set (500 when
    missing), `sigValid` the outcome of `stripe.webhooks.constructEvent`
    (invalid signatures are acknowledged with 200 and not processed), and
    `storeOk` whether the store calls inside the try-block succeed (a throw
    is caught and answered 500 so Stripe redelivers).  A completed checkout
    with metadata is processed in order: idempotency check by session id
    (no-op), duplicate check by (userId, courseId) — a REFUNDED pair is
    never resurrected (no-op), otherwise the existing row gets the Stripe
    identifiers attached — and finally creation of a PENDING enrollment at
    the settled amount.  Expired sessions and other events are only
    acknowledged. -/
def handleStripeWebhook (db : DB) (secretConfigured sigValid storeOk : Bool)
    (event : StripeEvent) : ApiResult :=
  if ! secretConfigured then ⟨500, db⟩
  else if ! sigValid then ⟨200, db⟩
  else
    match event with
    | .checkoutCompleted s =>
      match s.metaUserId, s.metaCourseId with
      | some uid, some cid =>
        if ! storeOk then ⟨500, db⟩
        else
          match findEnrollmentBySession db s.id with
          | some _ => ⟨200, db⟩
          | none =>
            match findEnrollmentByPair db uid cid with
            | some e0 =>
              if e0.status = .REFUNDED then ⟨200, db⟩
              else
                ⟨200, updateWhere db e0.id (fun e =>
                  { e with stripeSessionId := some s.id
                           stripePaymentId := s.payment_intent
                           paymentMethod := some "stripe" })⟩
            | none =>
              let e : Enrollment :=
                { id := db.nextId, userId := uid, courseId := cid
                  price := settledDollars s.amount_total
                  status := .PENDING, progress := 0, completedAt := none
                  paymentMethod := some "stripe"
                  stripeSessionId := some s.id
                  stripePaymentId := s.payment_intent }
              ⟨200, insertEnrollment db e⟩
      | _, _ => ⟨200, db⟩
    | .checkoutExpired _ => ⟨200, db⟩
    | .other => ⟨200, db⟩

/-! ## Lookup by payment session id -/

/-- `getEnrollmentBySessionId` (GET /api/enrollments/session/:sessionId,
    user): 404 when no enrollment carries the session id, 403 when it
    belongs to a different user, otherwise 200 with the enrollment.  The
    store is never modified. -/
def getEnrollmentBySessionId (db : DB) (callerUserId sessionId : String) :
    Nat × Option Enrollment :=
  match findEnrollmentBySession db sessionId with
  | none => (404, none)
  | some e =>
    if e.userId ≠ callerUserId then (403, none)
    else (200, some e)

/-! ## Concrete fixtures used by witnesses and counterexamples -/

/-- A published paid course. -/
def paidCourse : Course :=
  { id := "c1", title := "Paid", price := 50, status := .PUBLISHED }

/-- An unpublished (draft) course. -/
def draftCourse : Course :=
  { id := "c2", title := "Draft", price := 10, status := .DRAFT }

/-- A published free course. -/
def freeCourse : Course :=
  { id := "c3", title := "Free", price := 0, status := .PUBLISHED }

/-- A refunded enrollment of user `u1` in course `c1`, session `sess_1`. -/
def refundedEnrollment : Enrollment :=
  { id := 1, userId := "u1", courseId := "c1", price := 50
    status := .REFUNDED, progress := 40, completedAt := none
    paymentMethod := some "stripe", stripeSessionId := some "sess_1"
    stripePaymentId := some "pi_1" }

/-- A pending enrollment of user `u1` in course `c1`, session `sess_1`. -/
def pendingEnrollment : Enrollment :=
  { id := 1, userId := "u1", courseId := "c1", price := 50
    status := .PENDING, progress := 40, completedAt := none
    paymentMethod := some "stripe", stripeSessionId := some "sess_1"
    stripePaymentId := some "pi_1" }

/-- Store holding the refunded enrollment. -/
def refundedDB : DB :=
  { users := ["u1"], courses := [paidCourse]
    enrollments := [refundedEnrollment], nextId := 2 }

/-- Store holding the pending enrollment. -/
def pendingDB : DB :=
  { users := ["u1"], courses := [paidCourse]
    enrollments := [pendingEnrollment], nextId := 2 }

/-- Store with a user and the three courses but no enrollments. -/
def emptyDB : DB :=
  { users := ["u1"], courses := [paidCourse, draftCourse, freeCourse]
    enrollments := [], nextId := 0 }

/-- A completed-checkout session for the pair (u1, c1), 49.99 settled. -/
def sessA : StripeSession :=
  { id := "sess_A", payment_intent := some "pi_A", amount_total := some 4999
    metaUserId := some "u1", metaCourseId := some "c1" }

/-- A second completed-checkout session for the same pair (u1, c1) under a
    fresh session id. -/
def sessB : StripeSession :=
  { id := "sess_B", payment_intent := some "pi_B", amount_total := some 5000
    metaUserId := some "u1", metaCourseId := some "c1" }

/-- A completed-checkout event whose session id `sess_1` is already carried
    by the stored enrollment (a Stripe redelivery). -/
def sessDup : StripeSession :=
  { id := "sess_1", payment_intent := some "pi_1", amount_total := some 5000
    metaUserId := some "u1", metaCourseId := some "c1" }

/-! ## Helper lemmas -/

/-- `find?` commutes with a map that does not change the predicate. -/
theorem find_map_congr {α : Type} (p : α → Bool) (g : α → α) (l : List α)
    (hg : ∀ a, p (g a) = p a) :
    (l.map g).find? p = (l.find? p).map g := by
  induction l with
  | nil => rfl
  | cons a l ih =>
    by_cases h : p a = true
    · rw [List.map_cons, List.find?_cons_of_pos _ (by rw [hg]; exact h),
        List.find?_cons_of_pos _ h]
      simp
    · rw [List.map_cons,
        List.find?_cons_of_neg _ (by rw [hg]; simpa using h),
        List.find?_cons_of_neg _ (by simpa using h), ih]

/-- Updating row `i` with an id-preserving `f` turns the row found at `i`
    into its image under `f`. -/
theorem findEnrollmentById_updateWhere (db : DB) (i : Nat)
    (f : Enrollment → Enrollment) (hf : ∀ e, (f e).id = e.id)
    (e0 : Enrollment) (h : findEnrollmentById db i = some e0) :
    findEnrollmentById (updateWhere db i f) i = some (f e0) := by
  have hp : e0.id = i := by
    have := List.find?_some h
    simpa using this
  unfold findEnrollmentById updateWhere at *
  rw [find_map_congr _ _ _ (fun a => ?_), h]
  · simp [hp]
  · by_cases ha : a.id = i
    · simp [ha, hf]
    · simp [ha]

/-! ## Claim theorems -/

/-- C7: progress and completion are coupled bidirectionally.  An owner
    update setting progress to 100 on an enrollment that is not already
    COMPLETED yields status COMPLETED with `completedAt` stamped; an admin
    status update to COMPLETED yields progress 100 with `completedAt`
    stamped; a progress update below 100 changes only the progress field,
    leaving status and `completedAt` untouched. -/
theorem C7_progress_completion_coupling (db : DB) (i now : Nat)
    (e0 : Enrollment) (h : findEnrollmentById db i = some e0) :
    (e0.status ≠ .COMPLETED →
      (updateEnrollmentProgress db i (some 100) now).code = 200 ∧
      findEnrollmentById (updateEnrollmentProgress db i (some 100) now).db i =
        some { e0 with progress := 100, status := .COMPLETED
                       completedAt := some now }) ∧
    ((updateEnrollmentStatus db i (some "COMPLETED") now).code = 200 ∧
      findEnrollmentById (updateEnrollmentStatus db i (some "COMPLETED") now).db i =
        some { e0 with status := .COMPLETED, completedAt := some now
                       progress := 100 }) ∧
    (∀ p : Int, 0 ≤ p → p < 100 →
      findEnrollmentById (updateEnrollmentProgress db i (some p) now).db i =
        some { e0 with progress := p.toNat }) := by
  have hguard : ¬((100 : Int) < 0 ∨ (100 : Int) > 100) := by norm_num
  refine ⟨fun hne => ?_, ⟨?_, ?_⟩, fun p hp0 hp100 => ?_⟩
  · simp only [updateEnrollmentProgress, if_neg hguard, h]
    refine ⟨trivial, ?_⟩
    rw [findEnrollmentById_updateWhere db i _ (fun e => by split <;> rfl) e0 h]
    simp [hne]
  · have hps : parseStatus (jsToUpperCase "COMPLETED") =
      some EnrollStatus.COMPLETED := by decide
    simp only [updateEnrollmentStatus, hps, h]
  · have hps : parseStatus (jsToUpperCase "COMPLETED") =
      some EnrollStatus.COMPLETED := by decide
    simp only [updateEnrollmentStatus, hps, h]
    rw [findEnrollmentById_updateWhere db i _ (fun e => by split <;> rfl) e0 h]
    simp
  · have hg : ¬(p < 0 ∨ p > 100) := by omega
    have hne100 : ¬(p = 100 ∧ e0.status ≠ EnrollStatus.COMPLETED) := by
      rintro ⟨rfl, -⟩; omega
    simp only [updateEnrollmentProgress, if_neg hg, h]
    rw [findEnrollmentById_updateWhere db i _ (fun e => by split <;> rfl) e0 h]
    simp [hne100]

/-- C7 witness: on a concrete pending enrollment at progress 40, the owner's
    update to 100 completes it. -/
theorem C7_witness :
    (updateEnrollmentProgress pendingDB 1 (some 100) 9).code = 200 ∧
    findEnrollmentById (updateEnrollmentProgress pendingDB 1 (some 100) 9).db 1 =
      some { pendingEnrollment with progress := 100, status := .COMPLETED
                                    completedAt := some 9 } :=
  (C7_progress_completion_coupling pendingDB 1 9 pendingEnrollment
    (by decide)).1 (by decide)

/-- C1 counterexample: the claim that no automated transition moves a
    REFUNDED enrollment back to COMPLETED fails on the progress path — on a
    store holding a REFUNDED enrollment, the owner's update-progress call
    with value 100 succeeds and flips the status to COMPLETED. -/
theorem C1_counterexample_progress_resurrects_refunded :
    (findEnrollmentById refundedDB 1).map Enrollment.status =
      some EnrollStatus.REFUNDED ∧
    (updateEnrollmentProgress refundedDB 1 (some 100) 7).code = 200 ∧
    (findEnrollmentById
        (updateEnrollmentProgress refundedDB 1 (some 100) 7).db 1).map
      Enrollment.status = some EnrollStatus.COMPLETED := by decide

/-- C1 (amended): REFUNDED is terminal under the webhook path only — no
    webhook delivery (any flags, any event) changes the status, id, or
    ownership of a REFUNDED enrollment.  The progress path, by contrast,
    does resurrect a REFUNDED enrollment on an owner update to 100 (see the
    counterexample). -/
theorem C1_webhook_refunded_terminal (db : DB) (sc sv so : Bool)
    (ev : StripeEvent) (e : Enrollment) (hmem : e ∈ db.enrollments)
    (hst : e.status = .REFUNDED) :
    ∃ e' ∈ (handleStripeWebhook db sc sv so ev).db.enrollments,
      e'.id = e.id ∧ e'.userId = e.userId ∧ e'.courseId = e.courseId ∧
      e'.status = .REFUNDED := by
  unfold handleStripeWebhook
  cases sc with
  | false => exact ⟨e, hmem, rfl, rfl, rfl, hst⟩
  | true =>
  cases sv with
  | false => exact ⟨e, hmem, rfl, rfl, rfl, hst⟩
  | true =>
  cases ev with
  | checkoutExpired s => exact ⟨e, hmem, rfl, rfl, rfl, hst⟩
  | other => exact ⟨e, hmem, rfl, rfl, rfl, hst⟩
  | checkoutCompleted s =>
    dsimp only
    cases hu : s.metaUserId with
    | none => exact ⟨e, hmem, rfl, rfl, rfl, hst⟩
    | some uid =>
    cases hc : s.metaCourseId with
    | none => exact ⟨e, hmem, rfl, rfl, rfl, hst⟩
    | some cid =>
    cases so with
    | false => exact ⟨e, hmem, rfl, rfl, rfl, hst⟩
    | true =>
    dsimp only
    cases hs : findEnrollmentBySession db s.id with
    | some e1 => exact ⟨e, hmem, rfl, rfl, rfl, hst⟩
    | none =>
    dsimp only
    cases hp : findEnrollmentByPair db uid cid with
    | none => exact ⟨e, List.mem_cons_of_mem _ hmem, rfl, rfl, rfl, hst⟩
    | some e0 =>
      dsimp only
      by_cases hr : e0.status = EnrollStatus.REFUNDED
      · simp only [if_pos hr]
        exact ⟨e, hmem, rfl, rfl, rfl, hst⟩
      · simp only [if_neg hr]
        refine ⟨_, List.mem_map_of_mem _ hmem, ?_⟩
        by_cases hid : e.id = e0.id <;> simp [hid, hst]

/-- C1 amended-claim witness: a late confirmation for a fresh session id on
    the refunded (u1, c1) pair leaves the refunded row refunded. -/
theorem C1_witness :
    ∃ e' ∈ (handleStripeWebhook refundedDB true true true
        (.checkoutCompleted sessB)).db.enrollments,
      e'.id = refundedEnrollment.id ∧ e'.userId = refundedEnrollment.userId ∧
      e'.courseId = refundedEnrollment.courseId ∧
      e'.status = .REFUNDED :=
  C1_webhook_refunded_terminal refundedDB true true true
    (.checkoutCompleted sessB) refundedEnrollment (by decide) (by decide)

/-- A confirmation event whose session id is already attached to a stored
    enrollment is acknowledged with 200 and changes nothing. -/
theorem webhook_completed_processed (db : DB) (s : StripeSession)
    (h : (findEnrollmentBySession db s.id).isSome) :
    handleStripeWebhook db true true true (.checkoutCompleted s) = ⟨200, db⟩ := by
  obtain ⟨e1, he1⟩ := Option.isSome_iff_exists.mp h
  unfold handleStripeWebhook
  dsimp only
  cases s.metaUserId with
  | none => rfl
  | some uid =>
    cases s.metaCourseId with
    | none => rfl
    | some cid =>
      dsimp only
      rw [he1]
      rfl

/-- Processing a confirmation event always answers 200 and either leaves
    the store unchanged or leaves the event's session id attached to some
    stored enrollment. -/
theorem webhook_completed_cases (db : DB) (s : StripeSession) :
    (handleStripeWebhook db true true true (.checkoutCompleted s)).code = 200 ∧
    ((handleStripeWebhook db true true true (.checkoutCompleted s)).db = db ∨
      (findEnrollmentBySession
        (handleStripeWebhook db true true true (.checkoutCompleted s)).db
        s.id).isSome) := by
  unfold handleStripeWebhook
  dsimp only
  cases s.metaUserId with
  | none => exact ⟨rfl, Or.inl rfl⟩
  | some uid =>
  cases s.metaCourseId with
  | none => exact ⟨rfl, Or.inl rfl⟩
  | some cid =>
  dsimp only
  cases hs : findEnrollmentBySession db s.id with
  | some e1 => exact ⟨rfl, Or.inl rfl⟩
  | none =>
  dsimp only
  cases hp : findEnrollmentByPair db uid cid with
  | none =>
    refine ⟨rfl, Or.inr ?_⟩
    simp only [findEnrollmentBySession, insertEnrollment]
    exact List.find?_isSome.mpr ⟨_, List.mem_cons_self _ _, by simp⟩
  | some e0 =>
    dsimp only
    by_cases hr : e0.status = EnrollStatus.REFUNDED
    · simp only [if_pos hr]
      exact ⟨rfl, Or.inl rfl⟩
    · simp only [if_neg hr]
      refine ⟨rfl, Or.inr ?_⟩
      simp only [findEnrollmentBySession, updateWhere]
      refine List.find?_isSome.mpr
        ⟨_, List.mem_map_of_mem _ (List.mem_of_find?_eq_some hp), ?_⟩
      simp

/-- C2: webhook confirmation processing is idempotent in the session id.
    If some enrollment already carries the event's session id the handler
    acknowledges with 200 and leaves the store untouched; and replaying any
    confirmation event immediately after it was processed is a no-op, so N
    deliveries perform the work once and N-1 acknowledged no-ops. -/
theorem C2_webhook_idempotent (db : DB) (s : StripeSession)
    (h : (findEnrollmentBySession db s.id).isSome) :
    handleStripeWebhook db true true true (.checkoutCompleted s) = ⟨200, db⟩ ∧
    ∀ db' : DB, ∀ s' : StripeSession,
      handleStripeWebhook
          (handleStripeWebhook db' true true true (.checkoutCompleted s')).db
          true true true (.checkoutCompleted s') =
        ⟨200, (handleStripeWebhook db' true true true
                (.checkoutCompleted s')).db⟩ := by
  refine ⟨webhook_completed_processed db s h, fun db' s' => ?_⟩
  obtain ⟨hcode, hdb⟩ := webhook_completed_cases db' s'
  rcases hdb with hdb | hsome
  · rw [hdb]
    calc handleStripeWebhook db' true true true (.checkoutCompleted s')
        = ⟨(handleStripeWebhook db' true true true (.checkoutCompleted s')).code,
           (handleStripeWebhook db' true true true (.checkoutCompleted s')).db⟩ :=
          rfl
      _ = ⟨200, db'⟩ := by rw [hcode, hdb]
  · exact webhook_completed_processed _ s' hsome

/-- C2 witness: redelivering the already-processed `sess_1` confirmation to
    the store holding that enrollment is an acknowledged no-op. -/
theorem C2_witness :
    handleStripeWebhook pendingDB true true true (.checkoutCompleted sessDup) =
      ⟨200, pendingDB⟩ :=
  (C2_webhook_idempotent pendingDB sessDup (by decide)).1

/-- C3: a fresh confirmation (unseen session id) for a pair whose stored
    enrollment is REFUNDED is acknowledged with 200 and leaves the whole
    store — status, identifiers, rows — exactly as it was. -/
theorem C3_stale_confirmation_never_resurrects (db : DB) (s : StripeSession)
    (uid cid : String) (e0 : Enrollment)
    (hu : s.metaUserId = some uid) (hc : s.metaCourseId = some cid)
    (hs : findEnrollmentBySession db s.id = none)
    (hp : findEnrollmentByPair db uid cid = some e0)
    (hr : e0.status = .REFUNDED) :
    handleStripeWebhook db true true true (.checkoutCompleted s) = ⟨200, db⟩ := by
  unfold handleStripeWebhook
  dsimp only
  rw [hu, hc]
  dsimp only
  rw [hs]
  dsimp only
  rw [hp]
  dsimp only
  rw [if_pos hr]
  rfl

/-- C3 witness: the fresh `sess_B` confirmation on the store whose (u1, c1)
    enrollment is REFUNDED changes nothing. -/
theorem C3_witness :
    handleStripeWebhook refundedDB true true true (.checkoutCompleted sessB) =
      ⟨200, refundedDB⟩ :=
  C3_stale_confirmation_never_resurrects refundedDB sessB "u1" "c1"
    refundedEnrollment (by decide) (by decide) (by decide) (by decide)
    (by decide)

/-- C4: when neither the session id nor the (userId, courseId) pair is
    known, the webhook creates exactly one enrollment whose fields are
    status PENDING, progress 0, the gateway payment-method tag (the spec's
    "gateway", literally "stripe" here), the event's session and payment
    identifiers, and price equal to the settled `amount_total` converted
    from cents — a formula independent of any catalog price. -/
theorem C4_webhook_creates_pending_enrollment (db : DB) (s : StripeSession)
    (uid cid : String)
    (hu : s.metaUserId = some uid) (hc : s.metaCourseId = some cid)
    (hs : findEnrollmentBySession db s.id = none)
    (hp : findEnrollmentByPair db uid cid = none) :
    ∃ e : Enrollment,
      handleStripeWebhook db true true true (.checkoutCompleted s) =
        ⟨200, insertEnrollment db e⟩ ∧
      e.userId = uid ∧ e.courseId = cid ∧ e.status = .PENDING ∧
      e.progress = 0 ∧ e.paymentMethod = some "stripe" ∧
      e.stripeSessionId = some s.id ∧ e.stripePaymentId = s.payment_intent ∧
      e.price = settledDollars s.amount_total ∧
      ∀ n : Nat, s.amount_total = some n → e.price = (n : Rat) / 100 := by
  refine ⟨{ id := db.nextId, userId := uid, courseId := cid
            price := settledDollars s.amount_total, status := .PENDING
            progress := 0, completedAt := none, paymentMethod := some "stripe"
            stripeSessionId := some s.id, stripePaymentId := s.payment_intent },
          ?_, rfl, rfl, rfl, rfl, rfl, rfl, rfl, rfl, ?_⟩
  · unfold handleStripeWebhook
    dsimp only
    rw [hu, hc]
    dsimp only
    rw [hs]
    dsimp only
    rw [hp]
    rfl
  · intro n hn
    by_cases h0 : n = 0
    · subst h0
      simp [settledDollars, hn]
    · simp [settledDollars, hn, h0]

/-- C4 witness: the `sess_A` confirmation (4999 cents) on the empty store
    creates the PENDING enrollment with price 49.99. -/
theorem C4_witness :
    ∃ e : Enrollment,
      handleStripeWebhook emptyDB true true true (.checkoutCompleted sessA) =
        ⟨200, insertEnrollment emptyDB e⟩ ∧
      e.userId = "u1" ∧ e.courseId = "c1" ∧ e.status = .PENDING ∧
      e.progress = 0 ∧ e.paymentMethod = some "stripe" ∧
      e.stripeSessionId = some sessA.id ∧
      e.stripePaymentId = sessA.payment_intent ∧
      e.price = settledDollars sessA.amount_total ∧
      ∀ n : Nat, sessA.amount_total = some n → e.price = (n : Rat) / 100 :=
  C4_webhook_creates_pending_enrollment emptyDB sessA "u1" "c1"
    (by decide) (by decide) (by decide) (by decide)

/-- C5: with the webhook secret configured, the endpoint acknowledges with
    200 on every event — invalid signature, unknown event type, missing
    metadata, already-processed session, refunded-pair guard — except that
    a store failure (`storeOk = false`) on the processing path yields the
    retryable 500, with the store untouched.  An invalid signature is
    acknowledged without any processing, and missing metadata is
    acknowledged without touching the store even when the store is down. -/
theorem C5_webhook_ack_policy (db : DB) (sv so : Bool) (ev : StripeEvent) :
    ((handleStripeWebhook db true sv so ev).code = 200 ∨
      (so = false ∧ handleStripeWebhook db true sv so ev = ⟨500, db⟩)) ∧
    (sv = false → handleStripeWebhook db true sv so ev = ⟨200, db⟩) ∧
    (∀ s : StripeSession, s.metaUserId = none ∨ s.metaCourseId = none →
      handleStripeWebhook db true true so (.checkoutCompleted s) = ⟨200, db⟩) := by
  refine ⟨?_, fun hsv => by subst hsv; rfl, fun s h => ?_⟩
  · unfold handleStripeWebhook
    cases sv with
    | false => exact Or.inl rfl
    | true =>
    cases ev with
    | checkoutExpired s => exact Or.inl rfl
    | other => exact Or.inl rfl
    | checkoutCompleted s =>
      dsimp only
      cases s.metaUserId with
      | none => exact Or.inl rfl
      | some uid =>
      cases s.metaCourseId with
      | none => exact Or.inl rfl
      | some cid =>
      cases so with
      | false => exact Or.inr ⟨rfl, rfl⟩
      | true =>
      dsimp only
      cases hs : findEnrollmentBySession db s.id with
      | some e1 => exact Or.inl rfl
      | none =>
      dsimp only
      cases hp : findEnrollmentByPair db uid cid with
      | none => exact Or.inl rfl
      | some e0 =>
        dsimp only
        by_cases hr : e0.status = EnrollStatus.REFUNDED
        · simp only [if_pos hr]
          exact Or.inl rfl
        · simp only [if_neg hr]
          exact Or.inl rfl
  · unfold handleStripeWebhook
    dsimp only
    rcases h with hu | hc
    · rw [hu]
      rfl
    · cases s.metaUserId with
      | none => rfl
      | some uid =>
        rw [hc]
        rfl

/-- C5 witness: an event with an invalid signature against a concrete store
    is acknowledged with 200 and changes nothing. -/
theorem C5_witness :
    handleStripeWebhook pendingDB true false true .other = ⟨200, pendingDB⟩ :=
  (C5_webhook_ack_policy pendingDB false true .other).2.1 rfl

/-- C6 counterexample: the claim that a direct enroll/purchase call on an
    unpublished course fails with invalid-state is false for the admin
    create path — on a store whose course `c2` is DRAFT, `createEnrollment`
    answers 201 and inserts the enrollment. -/
theorem C6_counterexample_unpublished_admin_create :
    (findCourseById emptyDB "c2").map Course.status =
      some CourseStatus.DRAFT ∧
    (createEnrollment emptyDB (some "u1") (some "c2") none).code = 201 ∧
    (findEnrollmentByPair
        (createEnrollment emptyDB (some "u1") (some "c2") none).db
        "u1" "c2").isSome := by decide

/-- C6 (amended): the publication check guards only the user purchase path.
    `purchaseCourse`: missing course → 404; unpublished → 400; existing
    pair → 409; otherwise a PENDING, progress-0 enrollment at the catalog
    price.  `createEnrollment`: missing user or course → 404 (publication
    is NOT checked); existing pair → 409; otherwise a PENDING, progress-0
    enrollment at the caller override when given, else the catalog
    price. -/
theorem C6_enroll_purchase_contract (db : DB) (uid cid : String)
    (pr : Option Rat) :
    (userExists db uid = false →
      createEnrollment db (some uid) (some cid) pr = ⟨404, db⟩) ∧
    (findCourseById db cid = none →
      purchaseCourse db uid cid = ⟨404, db⟩ ∧
      createEnrollment db (some uid) (some cid) pr = ⟨404, db⟩) ∧
    (∀ course : Course, findCourseById db cid = some course →
      (course.status ≠ .PUBLISHED → purchaseCourse db uid cid = ⟨400, db⟩) ∧
      (course.status = .PUBLISHED → (findEnrollmentByPair db uid cid).isSome →
        purchaseCourse db uid cid = ⟨409, db⟩) ∧
      (course.status = .PUBLISHED → findEnrollmentByPair db uid cid = none →
        purchaseCourse db uid cid =
          ⟨201, insertEnrollment db
             { id := db.nextId, userId := uid, courseId := cid
               price := course.price, status := .PENDING, progress := 0
               completedAt := none, paymentMethod := none
               stripeSessionId := none, stripePaymentId := none }⟩) ∧
      (userExists db uid = true → (findEnrollmentByPair db uid cid).isSome →
        createEnrollment db (some uid) (some cid) pr = ⟨409, db⟩) ∧
      (userExists db uid = true → findEnrollmentByPair db uid cid = none →
        createEnrollment db (some uid) (some cid) pr =
          ⟨201, insertEnrollment db
             { id := db.nextId, userId := uid, courseId := cid
               price := pr.getD course.price, status := .PENDING
               progress := 0, completedAt := none, paymentMethod := none
               stripeSessionId := none, stripePaymentId := none }⟩)) := by
  refine ⟨?_, ?_, ?_⟩
  · intro hU
    unfold createEnrollment
    dsimp only
    rw [hU]
    rfl
  · intro hn
    constructor
    · unfold purchaseCourse
      rw [hn]
    · unfold createEnrollment
      dsimp only
      cases hU : userExists db uid with
      | false => rfl
      | true =>
        rw [hn]
        rfl
  · intro course hc
    refine ⟨fun hd => ?_, fun hp hex => ?_, fun hp hnone => ?_,
            fun hU hex => ?_, fun hU hnone => ?_⟩
    · unfold purchaseCourse
      rw [hc]
      dsimp only
      rw [if_pos hd]
    · obtain ⟨e1, he1⟩ := Option.isSome_iff_exists.mp hex
      unfold purchaseCourse
      rw [hc]
      dsimp only
      rw [if_neg (fun hne => hne hp), he1]
    · unfold purchaseCourse
      rw [hc]
      dsimp only
      rw [if_neg (fun hne => hne hp), hnone]
    · obtain ⟨e1, he1⟩ := Option.isSome_iff_exists.mp hex
      unfold createEnrollment
      dsimp only
      rw [hU]
      rw [hc]
      dsimp only
      rw [he1]
      rfl
    · unfold createEnrollment
      dsimp only
      rw [hU]
      rw [hc]
      dsimp only
      rw [hnone]
      cases pr <;> rfl

/-- C6 amended-claim witness: a purchase and an admin create against a
    missing course id both answer 404 and leave the store unchanged. -/
theorem C6_witness :
    purchaseCourse emptyDB "u1" "zzz" = ⟨404, emptyDB⟩ ∧
    createEnrollment emptyDB (some "u1") (some "zzz") none =
      ⟨404, emptyDB⟩ :=
  (C6_enroll_purchase_contract emptyDB "u1" "zzz" none).2.1 (by decide)

/-- C8: a checkout-session request on a zero-price published course (for a
    known user with no prior pair enrollment) immediately creates a PENDING
    enrollment with progress 0, price 0, and paymentMethod "free", answers
    201 with the created enrollment id as the no-payment-needed result, and
    calls no gateway — regardless of whether Stripe is configured. -/
theorem C8_free_course_checkout (db : DB) (uid cid : String)
    (course : Course) (cfg gok : Bool)
    (hc : findCourseById db cid = some course)
    (hpub : course.status = .PUBLISHED)
    (hpair : findEnrollmentByPair db uid cid = none)
    (hU : userExists db uid = true)
    (hfree : course.price = 0) :
    createCheckoutSession db uid (some cid) cfg gok =
      ⟨201, insertEnrollment db
         { id := db.nextId, userId := uid, courseId := cid, price := 0
           status := .PENDING, progress := 0, completedAt := none
           paymentMethod := some "free", stripeSessionId := none
           stripePaymentId := none },
        false, some db.nextId⟩ := by
  unfold createCheckoutSession
  dsimp only
  rw [hc]
  dsimp only
  rw [if_neg (fun hne => hne hpub), hpair]
  dsimp only
  rw [hU]
  rw [if_pos hfree]
  rfl

/-- C8 witness: the free course `c3` on the concrete store, with Stripe
    configured, enrolls immediately without a gateway call. -/
theorem C8_witness :
    createCheckoutSession emptyDB "u1" (some "c3") true true =
      ⟨201, insertEnrollment emptyDB
         { id := emptyDB.nextId, userId := "u1", courseId := "c3", price := 0
           status := .PENDING, progress := 0, completedAt := none
           paymentMethod := some "free", stripeSessionId := none
           stripePaymentId := none },
        false, some emptyDB.nextId⟩ :=
  C8_free_course_checkout emptyDB "u1" "c3" freeCourse true true (by decide)
    (by decide) (by decide) (by decide) (by decide)

/-- C9 counterexample: the claim that an unreachable gateway yields a
    service-unavailable error is false — on the paid course `c1` with every
    guard passing and Stripe configured, a failing gateway call lands in
    the generic error middleware, answering 500 (not 503); the store is
    still untouched. -/
theorem C9_counterexample_unreachable_is_generic_500 :
    (createCheckoutSession emptyDB "u1" (some "c1") true false).code = 500 ∧
    (createCheckoutSession emptyDB "u1" (some "c1") true false).code ≠ 503 ∧
    (createCheckoutSession emptyDB "u1" (some "c1") true false).db =
      emptyDB := by decide

/-- C9 (amended): a checkout-session request on a course with non-zero
    price never writes to the Enrollment store — whatever the outcome —
    and when the remaining guards pass, an unconfigured gateway yields the
    503 service-unavailable, an unreachable gateway propagates to the
    generic error handler's 500, and a healthy configured gateway is
    actually called with a 200; in no case is the user enrolled at this
    step. -/
theorem C9_paid_checkout_defers (db : DB) (uid cid : String)
    (course : Course) (cfg gok : Bool)
    (hc : findCourseById db cid = some course)
    (hpaid : course.price ≠ 0) :
    (createCheckoutSession db uid (some cid) cfg gok).db = db ∧
    (course.status = .PUBLISHED → findEnrollmentByPair db uid cid = none →
      userExists db uid = true →
      createCheckoutSession db uid (some cid) false gok =
        ⟨503, db, false, none⟩ ∧
      createCheckoutSession db uid (some cid) true false =
        ⟨500, db, true, none⟩ ∧
      createCheckoutSession db uid (some cid) true true =
        ⟨200, db, true, none⟩) := by
  constructor
  · unfold createCheckoutSession
    dsimp only
    rw [hc]
    dsimp only
    by_cases hpub : course.status = CourseStatus.PUBLISHED
    · rw [if_neg (fun hne => hne hpub)]
      cases hpr : findEnrollmentByPair db uid cid with
      | some e1 => rfl
      | none =>
        dsimp only
        cases hU : userExists db uid with
        | false => rfl
        | true =>
          rw [if_neg hpaid]
          cases cfg <;> cases gok <;> rfl
    · rw [if_pos hpub]
  · intro hpub hpair hU
    refine ⟨?_, ?_, ?_⟩ <;>
      · unfold createCheckoutSession
        dsimp only
        rw [hc]
        dsimp only
        rw [if_neg (fun hne => hne hpub), hpair]
        dsimp only
        rw [hU]
        rw [if_neg hpaid]
        rfl

/-- C9 amended-claim witness: for the paid course `c1` with every guard
    passing, the unconfigured gateway answers 503, the unreachable gateway
    answers the generic 500, the healthy gateway is called — never
    enrolling. -/
theorem C9_witness :
    createCheckoutSession emptyDB "u1" (some "c1") false true =
      ⟨503, emptyDB, false, none⟩ ∧
    createCheckoutSession emptyDB "u1" (some "c1") true false =
      ⟨500, emptyDB, true, none⟩ ∧
    createCheckoutSession emptyDB "u1" (some "c1") true true =
      ⟨200, emptyDB, true, none⟩ :=
  (C9_paid_checkout_defers emptyDB "u1" "c1" paidCourse false true
    (by decide) (by decide)).2 (by decide) (by decide) (by decide)

/-- C10: a lookup by payment session id returns the enrollment only to its
    owner — a caller who is not the owner receives 403 with no enrollment
    data, the owner receives 200 with the enrollment. -/
theorem C10_session_lookup_owner_only (db : DB) (caller sid : String)
    (e : Enrollment) (h : findEnrollmentBySession db sid = some e) :
    (e.userId ≠ caller →
      getEnrollmentBySessionId db caller sid = (403, none)) ∧
    (e.userId = caller →
      getEnrollmentBySessionId db caller sid = (200, some e)) := by
  unfold getEnrollmentBySessionId
  rw [h]
  dsimp only
  constructor
  · intro hne
    rw [if_pos hne]
  · intro heq
    rw [if_neg (fun hne => hne heq)]

/-- C10 witness: a caller `u2` asking for `sess_1`, owned by `u1`, is
    denied with 403 and receives no enrollment. -/
theorem C10_witness :
    getEnrollmentBySessionId pendingDB "u2" "sess_1" = (403, none) :=
  (C10_session_lookup_owner_only pendingDB "u2" "sess_1" pendingEnrollment
    (by decide)).1 (by decide)

end LMS
